import Mathlib

/-!
Verification of `app/services/grok/upscale.py` (`VideoUpscaleManager.upscale`).

The Python source is shallowly embedded below.  Pure string manipulation
(URL path extraction, cookie construction, path flattening) becomes Lean
functions; the HTTP transport and the video-cache collaborator become
function-valued fields of an environment record, so that theorems can
quantify over every possible collaborator behaviour; Python exceptions
become an `Except` monad with a constructor for the typed domain error
and one for all other exceptions.
-/

namespace Upscale

/-- JSON values, as produced by `response.json()` in the source.
Numbers are modelled as integers (the fields the code inspects are
strings, so the number representation is immaterial). -/
inductive Json where
  | null : Json
  | bool (b : Bool) : Json
  | num (n : Int) : Json
  | str (s : String) : Json
  | arr (elems : List Json) : Json
  | obj (fields : List (String × Json)) : Json
deriving Repr

/-- First binding of a key in a Python dict's item list. -/
def lookupField : List (String × Json) → String → Option Json
  | [], _ => none
  | (k, v) :: kvs, key => if k = key then some v else lookupField kvs key

/-- `d.get(key, default)` from the source (line `result.get("hdMediaUrl", "")`).
On a non-dict value Python raises `AttributeError`, modelled as `.error`. -/
def Json.get : Json → String → Json → Except String Json
  | .obj kvs, key, dflt => .ok ((lookupField kvs key).getD dflt)
  | _, _, _ => .error "AttributeError: no attribute get"

/-- Python truthiness of a JSON value, used by `if hd_url:` and
`if cache_path:` in the source. -/
def Json.truthy : Json → Bool
  | .null => false
  | .bool b => b
  | .num n => n != 0
  | .str s => !(s == "")
  | .arr xs => !xs.isEmpty
  | .obj kvs => !kvs.isEmpty

mutual

/-- Python `str()` of a JSON value (dict/list repr), as interpolated by
the f-string `f"{error_msg}, Details: {error_data}"` in the source. -/
def pyStr : Json → String
  | .null => "None"
  | .bool true => "True"
  | .bool false => "False"
  | .num n => toString n
  | .str s => "'" ++ s ++ "'"
  | .arr xs => "[" ++ pyStrList xs ++ "]"
  | .obj kvs => "\x7b" ++ pyStrObj kvs ++ "\x7d"

/-- Comma-separated repr of a list of JSON values. -/
def pyStrList : List Json → String
  | [] => ""
  | [x] => pyStr x
  | x :: xs => pyStr x ++ ", " ++ pyStrList xs

/-- Comma-separated repr of dict items. -/
def pyStrObj : List (String × Json) → String
  | [] => ""
  | [(k, v)] => "'" ++ k ++ "': " ++ pyStr v
  | (k, v) :: kvs => "'" ++ k ++ "': " ++ pyStr v ++ ", " ++ pyStrObj kvs

end

/-- Split a character list at the first occurrence of `sep`: the part
before it and the part after it, or `none` when `sep` does not occur. -/
def splitFirst (sep : List Char) : List Char → Option (List Char × List Char)
  | [] => if sep.isEmpty then some ([], []) else none
  | c :: cs =>
    if sep.isPrefixOf (c :: cs) then some ([], (c :: cs).drop sep.length)
    else
      match splitFirst sep cs with
      | some (pre, post) => some (c :: pre, post)
      | none => none

/-- `urlparse(url).path` from the source: when a `://` separator is
present, drop the scheme and the authority (everything before the next
`/`); then drop any fragment (from `#`) and query (from `?`). -/
def pathOfUrl (url : String) : String :=
  let cs := url.data
  let afterAuthority :=
    match splitFirst [':', '/', '/'] cs with
    | none => cs
    | some (_, rest) => rest.dropWhile (fun c => !(c == '/'))
  let noFragment := afterAuthority.takeWhile (fun c => !(c == '#'))
  String.mk (noFragment.takeWhile (fun c => !(c == '?')))

/-- `video_path.lstrip('/').replace('/', '-')` from the source
(the `safe_path` computation): drop leading slashes, then replace each
remaining slash by a dash. -/
def safePath (video_path : String) : String :=
  String.mk ((video_path.data.dropWhile (fun c => c == '/')).map
    (fun c => if c == '/' then '-' else c))

/-- Python character slicing `s[:n]` (used as `response.text[:200]`). -/
def sliceTo (s : String) (n : Nat) : String :=
  String.mk (s.data.take n)

/-- `f"{base_url}/images/{safe_path}" if base_url else f"/images/{safe_path}"`
from the source (the `local_video_url` computation). -/
def localVideoUrl (base_url safe : String) : String :=
  if base_url ≠ "" then base_url ++ "/images/" ++ safe else "/images/" ++ safe

/-- Modelled from the spec: the domain error type `GrokApiException`
(`app/core/exception.py`, absent from the sources) — "DomainError:
message, code; carries enough information for the caller to branch on
failure category".  `cause` records the original exception attached by
`raise ... from e`. -/
structure GrokApiException where
  message : String
  code : String
  cause : Option String
deriving Repr, DecidableEq

/-- An exception in flight inside the `try` body: either the typed
domain error or any other Python exception (carrying its message). -/
inductive Exn where
  | grok (e : GrokApiException) : Exn
  | other (msg : String) : Exn
deriving Repr, DecidableEq

/-- The outbound HTTP request as constructed by the source: fixed
endpoint, `Cookie` header, `{"videoId": ...}` payload, optional
http/https proxy pair, impersonation profile and timeout. -/
structure Request where
  url : String
  cookie : String
  payload_videoId : String
  proxies : Option (String × String)
  impersonate : String
  timeout : Nat
deriving Repr, DecidableEq

def UPSCALE_ENDPOINT : String := "https://grok.com/rest/media/video/upscale"
def REQUEST_TIMEOUT : Nat := 180
def IMPERSONATE_BROWSER : String := "chrome133a"

/-- Request construction from the source (payload, cookie with optional
`cf_clearance` joined by `;`, proxies when `proxy_url` is non-empty). -/
def buildRequest (cf_clearance proxy_url video_id auth_token : String) : Request :=
  { url := UPSCALE_ENDPOINT
    cookie := if cf_clearance ≠ "" then auth_token ++ ";" ++ cf_clearance else auth_token
    payload_videoId := video_id
    proxies := if proxy_url ≠ "" then some (proxy_url, proxy_url) else none
    impersonate := IMPERSONATE_BROWSER
    timeout := REQUEST_TIMEOUT }

/-- The HTTP response: status code, the outcome of `response.json()`
(`.error` when parsing raises), and the raw `response.text`. -/
structure HttpResponse where
  status_code : Nat
  jsonBody : Except String Json
  text : String

/-- Outcome of `session.post`: a response, or a transport exception. -/
inductive PostOutcome where
  | ok (r : HttpResponse) : PostOutcome
  | raise (msg : String) : PostOutcome

/-- Outcome of `video_cache_service.download_video`: a returned value
(`none` models Python `None`, `some s` a string path) or an exception. -/
inductive DownloadOutcome where
  | ret (cache_path : Option String) : DownloadOutcome
  | raise (msg : String) : DownloadOutcome

/-- Truthiness of the returned `cache_path` (`if cache_path:`). -/
def cachePathTruthy : Option String → Bool
  | some s => !(s == "")
  | none => false

/-- Modelled from the spec: the call-time environment — the process-wide
configuration snapshot (`setting.grok_config` / `setting.global_config`,
absent from the sources) and the two effectful collaborators, the HTTP
transport (`session.post`) and the cache service (`download_video`). -/
structure UpscaleEnv where
  cf_clearance : String
  proxy_url : String
  base_url : String
  send : Request → PostOutcome
  downloadVideo : String → String → DownloadOutcome

/-- The inner `try` of the caching sub-step (source lines 79–98): parse
the URL, delegate to `download_video`, and on a truthy handle rebuild a
local URL; any exception leaves `hd_url` unchanged.  A non-string
`hd_url` makes `urlparse` raise `TypeError`, likewise swallowed. -/
def cacheRewrite (env : UpscaleEnv) (auth_token : String) (hd_url : Json) : Json :=
  match hd_url with
  | .str u =>
    let video_path := pathOfUrl u
    match env.downloadVideo video_path auth_token with
    | .raise _ => hd_url
    | .ret cache_path =>
      if cachePathTruthy cache_path then
        .str (localVideoUrl env.base_url (safePath video_path))
      else hd_url
  | _ => hd_url

/-- The final dict returned on success:
`{"hd_media_url": hd_url, "success": True, "data": result}`. -/
structure UpscaleResult where
  hd_media_url : Json
  success : Bool
  data : Json
deriving Repr

/-- The `response.status_code == 200` branch of the source: parse the
body, read `hdMediaUrl` (default `""`), attempt the caching sub-step
when truthy, and return the result dict. -/
def handle200 (env : UpscaleEnv) (auth_token : String) (response : HttpResponse) :
    Except Exn UpscaleResult :=
  match response.jsonBody with
  | .error m => .error (.other m)
  | .ok result =>
    match Json.get result "hdMediaUrl" (.str "") with
    | .error m => .error (.other m)
    | .ok hd_url =>
      let hd_url :=
        if hd_url.truthy then cacheRewrite env auth_token hd_url else hd_url
      .ok { hd_media_url := hd_url, success := true, data := result }

/-- The non-200 branch of the source: build the diagnostic message from
the status code and either the parsed body or the first 200 characters
of the raw text, then raise `UPSCALE_ERROR`. -/
def handleNon200 (response : HttpResponse) : Except Exn UpscaleResult :=
  let sc := toString response.status_code
  let base := "Status code: " ++ sc
  let error_msg :=
    match response.jsonBody with
    | .ok error_data => base ++ ", Details: " ++ pyStr error_data
    | .error _ => base ++ ", Details: " ++ sliceTo response.text 200
  .error (.grok
    { message := "Video upscale failed: " ++ error_msg
      code := "UPSCALE_ERROR"
      cause := none })

/-- The body of the outer `try` (source lines 38–113): validation,
request construction, transport call, and the status-code branch. -/
def upscaleMain (env : UpscaleEnv) (video_id auth_token : String) :
    Except Exn UpscaleResult :=
  if video_id = "" then
    .error (.grok { message := "Video ID missing", code := "INVALID_PARAMS", cause := none })
  else if auth_token = "" then
    .error (.grok { message := "Authentication token missing", code := "NO_AUTH_TOKEN", cause := none })
  else
    match env.send (buildRequest env.cf_clearance env.proxy_url video_id auth_token) with
    | .raise m => .error (.other m)
    | .ok response =>
      if response.status_code = 200 then handle200 env auth_token response
      else handleNon200 response

/-- `VideoUpscaleManager.upscale`: the outer `except GrokApiException:
raise` / `except Exception as e: raise GrokApiException(...) from e`
translation (source lines 115–119). -/
def upscale (env : UpscaleEnv) (video_id auth_token : String) :
    Except GrokApiException UpscaleResult :=
  match upscaleMain env video_id auth_token with
  | .ok r => .ok r
  | .error (.grok e) => .error e
  | .error (.other m) =>
    .error { message := "Video upscale exception: " ++ m
             code := "UPSCALE_ERROR"
             cause := some m }

/-! ### Concrete fixtures used by the witness theorems -/

/-- A 200 response body carrying a non-empty `hdMediaUrl`. -/
def sampleBody : Json :=
  Json.obj [("hdMediaUrl", Json.str "https://cdn.example/vid/abc.mp4")]

/-- A 200 response with `sampleBody`. -/
def sampleResponse : HttpResponse :=
  { status_code := 200, jsonBody := .ok sampleBody, text := "" }

/-- A 404 response whose body is not parseable JSON. -/
def response404 : HttpResponse :=
  { status_code := 404, jsonBody := .error "Expecting value", text := "not found" }

/-- A 200 response whose body has no `hdMediaUrl` field. -/
def emptyUrlResponse : HttpResponse :=
  { status_code := 200, jsonBody := .ok (Json.obj []), text := "" }

/-- An environment with the given transport and cache collaborator. -/
def mkEnv (send : Request → PostOutcome)
    (dv : String → String → DownloadOutcome) : UpscaleEnv :=
  { cf_clearance := "CF1"
    proxy_url := ""
    base_url := ""
    send := send
    downloadVideo := dv }

/-! ### Claim theorems -/

/-- C3: for every empty `video_id` (and any `auth_token`), `upscale`
fails with a `GrokApiException` of kind `INVALID_PARAMS`.  The
environment — in particular its transport function `send` — is
universally quantified and unused, so no network request is issued. -/
theorem upscale_empty_video_id_invalid_params (env : UpscaleEnv) (auth_token : String) :
    upscale env "" auth_token
      = .error { message := "Video ID missing", code := "INVALID_PARAMS", cause := none } := rfl

/-- C4: for every non-empty `video_id` and empty `auth_token`,
`upscale` fails with a `GrokApiException` of kind `NO_AUTH_TOKEN`.  The
environment, including its transport function, is universally
quantified and unused, so no network request is issued. -/
theorem upscale_empty_auth_token_no_auth (env : UpscaleEnv) (video_id : String)
    (hv : video_id ≠ "") :
    upscale env video_id ""
      = .error { message := "Authentication token missing", code := "NO_AUTH_TOKEN", cause := none } := by
  simp [upscale, upscaleMain, hv]

/-- Witness for C4 at `video_id = "v1"`. -/
theorem upscale_empty_auth_token_no_auth_witness :
    ("v1" : String) ≠ ""
    ∧ upscale (mkEnv (fun _ => .ok sampleResponse) (fun _ _ => .ret (some "/cache/v")))
        "v1" ""
      = .error { message := "Authentication token missing", code := "NO_AUTH_TOKEN", cause := none } :=
  ⟨by decide,
    upscale_empty_auth_token_no_auth
      (mkEnv (fun _ => .ok sampleResponse) (fun _ _ => .ret (some "/cache/v")))
      "v1" (by decide)⟩

/-- C5: for every non-empty `auth_token`, the `Cookie` header of the
outbound request built by `upscale` (the request `upscaleMain` hands to
the transport is exactly `buildRequest`) is the auth token joined with
the configured `cf_clearance` by `;` when the clearance is non-empty,
and the auth token alone when it is empty. -/
theorem upscale_cookie_header
    (cf_clearance proxy_url video_id auth_token : String)
    (ht : auth_token ≠ "") :
    (cf_clearance ≠ "" →
      (buildRequest cf_clearance proxy_url video_id auth_token).cookie
        = auth_token ++ ";" ++ cf_clearance)
    ∧ (cf_clearance = "" →
      (buildRequest cf_clearance proxy_url video_id auth_token).cookie = auth_token)
    ∧ (∀ env : UpscaleEnv, env.cf_clearance = cf_clearance → env.proxy_url = proxy_url →
        video_id ≠ "" →
        upscaleMain env video_id auth_token =
          match env.send (buildRequest cf_clearance proxy_url video_id auth_token) with
          | .raise m => .error (.other m)
          | .ok response =>
            if response.status_code = 200 then handle200 env auth_token response
            else handleNon200 response) := by
  refine ⟨fun h => by simp [buildRequest, h], fun h => by simp [buildRequest, h], ?_⟩
  intro env hcf hproxy hv
  subst hcf hproxy
  simp [upscaleMain, hv, ht]

/-- Witness for C5 at clearance `"CF1"` and token `"TOK"`. -/
theorem upscale_cookie_header_witness :
    ("TOK" : String) ≠ ""
    ∧ ((("CF1" : String) ≠ "" →
        (buildRequest "CF1" "" "v1" "TOK").cookie = "TOK" ++ ";" ++ "CF1")
      ∧ (("CF1" : String) = "" →
        (buildRequest "CF1" "" "v1" "TOK").cookie = "TOK")
      ∧ (∀ env : UpscaleEnv, env.cf_clearance = "CF1" → env.proxy_url = "" →
          ("v1" : String) ≠ "" →
          upscaleMain env "v1" "TOK" =
            match env.send (buildRequest "CF1" "" "v1" "TOK") with
            | .raise m => .error (.other m)
            | .ok response =>
              if response.status_code = 200 then handle200 env "TOK" response
              else handleNon200 response)) :=
  ⟨by decide, upscale_cookie_header "CF1" "" "v1" "TOK" (by decide)⟩

/-- C9: the path-flattening function `safePath` used for the local URL
is not injective: the distinct remote paths `a/b-c` and `a-b/c` both
flatten to `a-b-c`, so distinct remote assets can map to the same local
URL. -/
theorem safePath_not_injective :
    safePath "a/b-c" = safePath "a-b/c"
    ∧ safePath "a/b-c" = "a-b-c"
    ∧ ("a/b-c" : String) ≠ "a-b/c" :=
  ⟨rfl, rfl, by decide⟩

/-- C1: for every 200 response whose body carries a non-empty
`hdMediaUrl`, if the cache collaborator raises, `upscale` still
succeeds, with `hd_media_url` equal to the original remote URL: the
caching sub-step never turns a successful upscale into a failure. -/
theorem upscale_cache_exception_preserves_success
    (env : UpscaleEnv) (video_id auth_token u m : String) (body : Json)
    (response : HttpResponse)
    (hv : video_id ≠ "") (ht : auth_token ≠ "")
    (hsend : env.send (buildRequest env.cf_clearance env.proxy_url video_id auth_token)
      = PostOutcome.ok response)
    (hsc : response.status_code = 200)
    (hjson : response.jsonBody = .ok body)
    (hget : Json.get body "hdMediaUrl" (Json.str "") = .ok (Json.str u))
    (hu : u ≠ "")
    (hdl : env.downloadVideo (pathOfUrl u) auth_token = DownloadOutcome.raise m) :
    upscale env video_id auth_token
      = .ok { hd_media_url := Json.str u, success := true, data := body } := by
  simp [upscale, upscaleMain, handle200, cacheRewrite, Json.truthy,
        hv, ht, hsend, hsc, hjson, hget, hu, hdl]

/-- Witness for C1: a throwing collaborator, the sample 200 response. -/
theorem upscale_cache_exception_preserves_success_witness :
    ("v1" : String) ≠ ""
    ∧ ("TOK" : String) ≠ ""
    ∧ ("https://cdn.example/vid/abc.mp4" : String) ≠ ""
    ∧ upscale (mkEnv (fun _ => .ok sampleResponse) (fun _ _ => .raise "disk full"))
        "v1" "TOK"
      = .ok { hd_media_url := Json.str "https://cdn.example/vid/abc.mp4", success := true,
              data := sampleBody } :=
  ⟨by decide, by decide, by decide,
    upscale_cache_exception_preserves_success
      (mkEnv (fun _ => .ok sampleResponse) (fun _ _ => .raise "disk full"))
      "v1" "TOK" "https://cdn.example/vid/abc.mp4" "disk full" sampleBody sampleResponse
      (by decide) (by decide) rfl rfl rfl rfl (by decide) rfl⟩

/-- C2: for every response with a status code other than 200, `upscale`
fails with a `GrokApiException` of kind `UPSCALE_ERROR` whose message
carries the status code and either the parsed JSON error body or, when
the body does not parse, the first 200 characters of the raw text; no
success result is returned. -/
theorem upscale_non200_upscale_error
    (env : UpscaleEnv) (video_id auth_token : String) (response : HttpResponse)
    (hv : video_id ≠ "") (ht : auth_token ≠ "")
    (hsend : env.send (buildRequest env.cf_clearance env.proxy_url video_id auth_token)
      = PostOutcome.ok response)
    (hsc : response.status_code ≠ 200) :
    upscale env video_id auth_token
      = .error (GrokApiException.mk
          ("Video upscale failed: " ++
            ("Status code: " ++ toString response.status_code ++ ", Details: " ++
              (match response.jsonBody with
                | .ok error_data => pyStr error_data
                | .error _ => sliceTo response.text 200)))
          "UPSCALE_ERROR" none) := by
  cases hj : response.jsonBody with
  | ok d => simp [upscale, upscaleMain, handleNon200, hv, ht, hsend, hsc, hj]
  | error s => simp [upscale, upscaleMain, handleNon200, hv, ht, hsend, hsc, hj]

/-- Witness for C2: a 404 response with non-JSON body `"not found"`. -/
theorem upscale_non200_upscale_error_witness :
    ("v1" : String) ≠ ""
    ∧ ("TOK" : String) ≠ ""
    ∧ response404.status_code ≠ 200
    ∧ upscale (mkEnv (fun _ => .ok response404) (fun _ _ => .ret none)) "v1" "TOK"
      = .error { message := "Video upscale failed: Status code: 404, Details: not found"
                 code := "UPSCALE_ERROR"
                 cause := none } :=
  ⟨by decide, by decide, by decide,
    upscale_non200_upscale_error
      (mkEnv (fun _ => .ok response404) (fun _ _ => .ret none))
      "v1" "TOK" response404 (by decide) (by decide) rfl (by decide)⟩

/-- C6: for every 200 response with non-empty `hdMediaUrl` where the
collaborator returns a truthy local handle, the returned `hd_media_url`
is the local URL: the URL path (`pathOfUrl`), leading slashes stripped
and the remaining slashes replaced by dashes (`safePath`), prefixed by
the configured `base_url`, or by the fixed `/images/` route when
`base_url` is empty (`localVideoUrl`). -/
theorem upscale_cached_local_url
    (env : UpscaleEnv) (video_id auth_token u cp : String) (body : Json)
    (response : HttpResponse)
    (hv : video_id ≠ "") (ht : auth_token ≠ "")
    (hsend : env.send (buildRequest env.cf_clearance env.proxy_url video_id auth_token)
      = PostOutcome.ok response)
    (hsc : response.status_code = 200)
    (hjson : response.jsonBody = .ok body)
    (hget : Json.get body "hdMediaUrl" (Json.str "") = .ok (Json.str u))
    (hu : u ≠ "")
    (hdl : env.downloadVideo (pathOfUrl u) auth_token = DownloadOutcome.ret (some cp))
    (hcp : cp ≠ "") :
    upscale env video_id auth_token
      = .ok { hd_media_url := Json.str (localVideoUrl env.base_url (safePath (pathOfUrl u)))
              success := true
              data := body } := by
  simp [upscale, upscaleMain, handle200, cacheRewrite, cachePathTruthy, Json.truthy,
        hv, ht, hsend, hsc, hjson, hget, hu, hdl, hcp]

/-- Witness for C6: path `vid/abc.mp4` flattens to `vid-abc.mp4` and,
with no base URL configured, serves from `/images/vid-abc.mp4`. -/
theorem upscale_cached_local_url_witness :
    ("v1" : String) ≠ ""
    ∧ ("TOK" : String) ≠ ""
    ∧ ("https://cdn.example/vid/abc.mp4" : String) ≠ ""
    ∧ ("/cache/vid.mp4" : String) ≠ ""
    ∧ upscale (mkEnv (fun _ => .ok sampleResponse) (fun _ _ => .ret (some "/cache/vid.mp4")))
        "v1" "TOK"
      = .ok { hd_media_url := Json.str "/images/vid-abc.mp4", success := true,
              data := sampleBody } :=
  ⟨by decide, by decide, by decide, by decide,
    upscale_cached_local_url
      (mkEnv (fun _ => .ok sampleResponse) (fun _ _ => .ret (some "/cache/vid.mp4")))
      "v1" "TOK" "https://cdn.example/vid/abc.mp4" "/cache/vid.mp4" sampleBody sampleResponse
      (by decide) (by decide) rfl rfl rfl rfl (by decide) rfl (by decide)⟩

/-- C7: for every 200 response whose body's `hdMediaUrl` is absent or
empty (so the `get` default yields `""`), `upscale` succeeds with
`hd_media_url = ""`, and the cache collaborator — universally
quantified here as `dv` and never consulted — plays no part. -/
theorem upscale_empty_hdurl_no_cache
    (env : UpscaleEnv) (dv : String → String → DownloadOutcome)
    (video_id auth_token : String) (body : Json) (response : HttpResponse)
    (hv : video_id ≠ "") (ht : auth_token ≠ "")
    (hsend : env.send (buildRequest env.cf_clearance env.proxy_url video_id auth_token)
      = PostOutcome.ok response)
    (hsc : response.status_code = 200)
    (hjson : response.jsonBody = .ok body)
    (hget : Json.get body "hdMediaUrl" (Json.str "") = .ok (Json.str "")) :
    upscale { env with downloadVideo := dv } video_id auth_token
      = .ok { hd_media_url := Json.str "", success := true, data := body } := by
  simp [upscale, upscaleMain, handle200, Json.truthy, hv, ht, hsend, hsc, hjson, hget]

/-- Witness for C7: a 200 response whose body is the empty object. -/
theorem upscale_empty_hdurl_no_cache_witness :
    ("v1" : String) ≠ ""
    ∧ ("TOK" : String) ≠ ""
    ∧ emptyUrlResponse.status_code = 200
    ∧ upscale (mkEnv (fun _ => .ok emptyUrlResponse) (fun _ _ => .raise "never called"))
        "v1" "TOK"
      = .ok { hd_media_url := Json.str "", success := true, data := Json.obj [] } :=
  ⟨by decide, by decide, rfl,
    upscale_empty_hdurl_no_cache
      (mkEnv (fun _ => .ok emptyUrlResponse) (fun _ _ => .raise "never called"))
      (fun _ _ => .raise "never called")
      "v1" "TOK" (Json.obj []) emptyUrlResponse
      (by decide) (by decide) rfl rfl rfl rfl⟩

/-- C8: the outer exception translation of `upscale` — any exception
escaping the body of the `try` (`upscaleMain`) is re-raised unchanged
when it is already a typed `GrokApiException` (no double-wrapping, in
particular for the two validation errors), and is otherwise wrapped
into a `GrokApiException` of kind `UPSCALE_ERROR` whose `cause` field
preserves the original exception. -/
theorem upscale_exception_translation
    (env : UpscaleEnv) (video_id auth_token : String) (e : Exn)
    (h : upscaleMain env video_id auth_token = .error e) :
    upscale env video_id auth_token =
      match e with
      | .grok g => .error g
      | .other s =>
        .error (GrokApiException.mk ("Video upscale exception: " ++ s)
          "UPSCALE_ERROR" (some s)) := by
  cases e <;> simp [upscale, h]

/-- Witness for C8: a transport exception `"timeout"` is wrapped with
its cause preserved. -/
theorem upscale_exception_translation_witness :
    upscaleMain (mkEnv (fun _ => .raise "timeout") (fun _ _ => .ret none)) "v1" "TOK"
      = .error (Exn.other "timeout")
    ∧ upscale (mkEnv (fun _ => .raise "timeout") (fun _ _ => .ret none)) "v1" "TOK"
      = .error (GrokApiException.mk "Video upscale exception: timeout"
          "UPSCALE_ERROR" (some "timeout")) :=
  ⟨rfl,
    upscale_exception_translation
      (mkEnv (fun _ => .raise "timeout") (fun _ _ => .ret none))
      "v1" "TOK" (Exn.other "timeout") rfl⟩

/-- Every successful run of the `try` body yields a result whose
`success` field is literally `true` (it can only be built by the
200-branch's result dict). -/
theorem upscaleMain_ok_success (env : UpscaleEnv) (video_id auth_token : String)
    (r : UpscaleResult) (h : upscaleMain env video_id auth_token = .ok r) :
    r.success = true := by
  by_cases hv : video_id = ""
  · simp [upscaleMain, hv] at h
  · by_cases ht : auth_token = ""
    · simp [upscaleMain, hv, ht] at h
    · cases hs : env.send (buildRequest env.cf_clearance env.proxy_url video_id auth_token) with
      | raise s => simp [upscaleMain, hv, ht, hs] at h
      | ok response =>
        by_cases hsc : response.status_code = 200
        · cases hj : response.jsonBody with
          | error s => simp [upscaleMain, handle200, hv, ht, hs, hsc, hj] at h
          | ok result =>
            cases hg : Json.get result "hdMediaUrl" (Json.str "") with
            | error s => simp [upscaleMain, handle200, hv, ht, hs, hsc, hj, hg] at h
            | ok hd =>
              simp [upscaleMain, handle200, hv, ht, hs, hsc, hj, hg] at h
              rw [← h]
        · simp [upscaleMain, handleNon200, hv, ht, hs, hsc] at h

/-- C10: for every 200 response with a non-empty `hdMediaUrl` whose
cache collaborator returns a falsy handle without raising, `upscale`
succeeds with the original remote URL, no local rewrite; and whenever
`upscale` returns without raising, the result is the fixed
`UpscaleResult` shape whose `success` field is literally `true` — it
never produces a `success = false` result. -/
theorem upscale_falsy_handle_and_success_shape
    (env : UpscaleEnv) (video_id auth_token u : String) (cp : Option String)
    (body : Json) (response : HttpResponse)
    (hv : video_id ≠ "") (ht : auth_token ≠ "")
    (hsend : env.send (buildRequest env.cf_clearance env.proxy_url video_id auth_token)
      = PostOutcome.ok response)
    (hsc : response.status_code = 200)
    (hjson : response.jsonBody = .ok body)
    (hget : Json.get body "hdMediaUrl" (Json.str "") = .ok (Json.str u))
    (hu : u ≠ "")
    (hdl : env.downloadVideo (pathOfUrl u) auth_token = DownloadOutcome.ret cp)
    (hcp : cachePathTruthy cp = false) :
    upscale env video_id auth_token
      = .ok { hd_media_url := Json.str u, success := true, data := body }
    ∧ (∀ (env2 : UpscaleEnv) (v2 t2 : String) (r : UpscaleResult),
        upscale env2 v2 t2 = .ok r → r.success = true) := by
  constructor
  · simp [upscale, upscaleMain, handle200, cacheRewrite, Json.truthy,
          hv, ht, hsend, hsc, hjson, hget, hu, hdl, hcp]
  · intro env2 v2 t2 r h
    unfold upscale at h
    cases hm : upscaleMain env2 v2 t2 with
    | ok r0 =>
      rw [hm] at h
      simp at h
      exact h ▸ upscaleMain_ok_success env2 v2 t2 r0 hm
    | error e =>
      cases e <;> (rw [hm] at h; simp at h)

/-- Witness for C10: the collaborator returns `None`; the remote URL is
kept and the result reports success. -/
theorem upscale_falsy_handle_and_success_shape_witness :
    ("v1" : String) ≠ ""
    ∧ ("TOK" : String) ≠ ""
    ∧ ("https://cdn.example/vid/abc.mp4" : String) ≠ ""
    ∧ cachePathTruthy none = false
    ∧ (upscale (mkEnv (fun _ => .ok sampleResponse) (fun _ _ => .ret none)) "v1" "TOK"
        = .ok { hd_media_url := Json.str "https://cdn.example/vid/abc.mp4", success := true,
                data := sampleBody }
      ∧ (∀ (env2 : UpscaleEnv) (v2 t2 : String) (r : UpscaleResult),
          upscale env2 v2 t2 = .ok r → r.success = true)) :=
  ⟨by decide, by decide, by decide, rfl,
    upscale_falsy_handle_and_success_shape
      (mkEnv (fun _ => .ok sampleResponse) (fun _ _ => .ret none))
      "v1" "TOK" "https://cdn.example/vid/abc.mp4" none sampleBody sampleResponse
      (by decide) (by decide) rfl rfl rfl rfl (by decide) rfl rfl⟩

end Upscale
